import Mathlib

/-!
# Verification of the eda-cli dataset-quality service (HW04, `eda_cli/api.py`)

Shallow embedding of the Quality Assessment Engine:

* the feature-based scoring endpoint `quality` (a pure computation over a
  `QualityRequest`),
* the two CSV endpoints `quality_from_csv` and `quality_flags_from_csv`,
  which validate a content-type hint, parse bytes into a table, delegate to
  the EDA collaborator (`eda_cli.core`: `summarize_dataset`, `missing_table`,
  `compute_quality_flags`) and normalize its output,
* the structured-telemetry formatter `JSONFormatter.format`.

Modelling conventions:
* Python floats are modelled as exact rationals (`ℚ`); the numeric literals
  of the source (`0.2`, `0.1`, `0.05`, `0.7`, `0.5`) become the corresponding
  rationals.
* The EDA collaborator lives in `eda_cli.core`, outside the embedded file; it
  is modelled as an abstract record of functions (`EdaCore`) that the
  endpoints are parametric over.  Per the design document its summary is not
  guaranteed to carry dimension fields, so those are `Option`-valued.
* `pandas.read_csv` is external as well; its outcome is an input
  (`Except String Table`, the error side carrying the exception message).
* Wall-clock effects (`perf_counter`) are modelled by passing the measured
  latency as a parameter; the correlation id and timestamp attached at
  serialization time are parameters of the formatter.
-/

/-- Clamp a rational to the unit interval, `max(0.0, min(1.0, s))`. -/
def clamp01 (x : ℚ) : ℚ := max 0 (min 1 x)

/-- Request body of `POST /quality`: aggregated dataset features
(`QualityRequest` in the source).  Counts are naturals; the boundary layer
validates `0 ≤ max_missing_share ≤ 1`. -/
structure QualityRequest where
  n_rows : ℕ
  n_cols : ℕ
  max_missing_share : ℚ
  numeric_cols : ℕ
  categorical_cols : ℕ
deriving DecidableEq

/-- Verdict message when the dataset passes. -/
def msg_ok : String :=
  "Данных достаточно, модель можно обучать (по текущим эвристикам)."

/-- Verdict message when the dataset fails. -/
def msg_not_ok : String :=
  "Качество данных недостаточно, требуется доработка (по текущим эвристикам)."

/-- Response body of `POST /quality` (`QualityResponse` in the source), minus
the wall-clock `latency_ms` field.  `dataset_shape` is the
`{"n_rows": ..., "n_cols": ...}` mapping, as a pair. -/
structure QualityResponse where
  ok_for_model : Bool
  quality_score : ℚ
  message : String
  flags : List (String × Bool)
  dataset_shape : ℕ × ℕ
deriving DecidableEq

/-- The `/quality` endpoint body: sequential score deductions, clamp,
threshold at `0.7`, fixed messages, and the five diagnostic flags computed
from the raw request fields. -/
def quality (req : QualityRequest) : QualityResponse :=
  let score : ℚ := 1
  let score := score - req.max_missing_share
  let score := if req.n_rows < 1000 then score - 2/10 else score
  let score := if req.n_cols > 100 then score - 1/10 else score
  let score := if req.numeric_cols = 0 ∧ req.categorical_cols > 0 then score - 1/10 else score
  let score := if req.categorical_cols = 0 ∧ req.numeric_cols > 0 then score - 5/100 else score
  let score := max 0 (min 1 score)
  let ok_for_model : Bool := decide ((7 : ℚ)/10 ≤ score)
  let message := if ok_for_model then msg_ok else msg_not_ok
  let flags : List (String × Bool) :=
    [("too_few_rows", decide (req.n_rows < 1000)),
     ("too_many_columns", decide (req.n_cols > 100)),
     ("too_many_missing", decide (req.max_missing_share > 5/10)),
     ("no_numeric_columns", decide (req.numeric_cols = 0)),
     ("no_categorical_columns", decide (req.categorical_cols = 0))]
  { ok_for_model := ok_for_model
    quality_score := score
    message := message
    flags := flags
    dataset_shape := (req.n_rows, req.n_cols) }

/-- The score as the specification spells it: start at `1.0`, subtract each
penalty that applies, then clamp to `[0,1]`.  Stated independently of
`quality` so the two can be compared. -/
def spec_deduction_score (req : QualityRequest) : ℚ :=
  clamp01 (1 - req.max_missing_share
    - (if req.n_rows < 1000 then 2/10 else 0)
    - (if req.n_cols > 100 then 1/10 else 0)
    - (if req.numeric_cols = 0 ∧ req.categorical_cols > 0 then 1/10 else 0)
    - (if req.categorical_cols = 0 ∧ req.numeric_cols > 0 then 5/100 else 0))

lemma clamp01_nonneg (x : ℚ) : 0 ≤ clamp01 x := le_max_left 0 _

lemma clamp01_le_one (x : ℚ) : clamp01 x ≤ 1 :=
  max_le zero_le_one (min_le_left 1 x)

lemma clamp01_mono {x y : ℚ} (h : x ≤ y) : clamp01 x ≤ clamp01 y :=
  max_le_max le_rfl (min_le_min le_rfl h)

/-- C1: the `/quality` score equals the spec's exact deduction sequence
(start at 1.0, subtract `max_missing_share`, 0.2 for few rows, 0.1 for many
columns, 0.1 for no-numeric-with-categorical, 0.05 for
no-categorical-with-numeric, clamp to `[0,1]`); the returned score is always
in `[0,1]`; `ok_for_model` holds exactly when the clamped score is `≥ 0.7`
(exactly `0.7` passes); and the message is the fixed string selected by
`ok_for_model`. -/
theorem quality_matches_spec_deduction (req : QualityRequest)
    (h0 : 0 ≤ req.max_missing_share) (h1 : req.max_missing_share ≤ 1) :
    (quality req).quality_score = spec_deduction_score req ∧
    0 ≤ (quality req).quality_score ∧ (quality req).quality_score ≤ 1 ∧
    ((quality req).ok_for_model = true ↔ (7 : ℚ)/10 ≤ (quality req).quality_score) ∧
    (quality req).message =
      (if (quality req).ok_for_model then msg_ok else msg_not_ok) := by
  refine ⟨?_, ?_, ?_, ?_, ?_⟩
  · simp only [quality, spec_deduction_score, clamp01]
    split_ifs <;> ring_nf
  · simpa only [quality] using clamp01_nonneg _
  · simpa only [quality] using clamp01_le_one _
  · simp [quality]
  · rfl

/-- Concrete instantiation of `quality_matches_spec_deduction` at
`FeatureSet{n_rows=500, n_cols=10, max_missing_share=0, numeric_cols=5,
categorical_cols=5}`. -/
theorem quality_matches_spec_deduction_witness :
    0 ≤ (⟨500, 10, 0, 5, 5⟩ : QualityRequest).max_missing_share ∧
    (⟨500, 10, 0, 5, 5⟩ : QualityRequest).max_missing_share ≤ 1 ∧
    ((quality ⟨500, 10, 0, 5, 5⟩).quality_score = spec_deduction_score ⟨500, 10, 0, 5, 5⟩ ∧
     0 ≤ (quality ⟨500, 10, 0, 5, 5⟩).quality_score ∧
     (quality ⟨500, 10, 0, 5, 5⟩).quality_score ≤ 1 ∧
     ((quality ⟨500, 10, 0, 5, 5⟩).ok_for_model = true ↔
        (7 : ℚ)/10 ≤ (quality ⟨500, 10, 0, 5, 5⟩).quality_score) ∧
     (quality ⟨500, 10, 0, 5, 5⟩).message =
       (if (quality ⟨500, 10, 0, 5, 5⟩).ok_for_model then msg_ok else msg_not_ok)) :=
  ⟨by norm_num, by norm_num,
   quality_matches_spec_deduction ⟨500, 10, 0, 5, 5⟩ (by norm_num) (by norm_num)⟩

/-- C2: the `/quality` flags are exactly the five fixed keys computed from
the raw request fields (independently of the clamped score); in particular,
at `FeatureSet{max_missing_share=0.9, n_rows=2000, n_cols=5, numeric_cols=3,
categorical_cols=2}` the score is `0.1`, `ok_for_model` is `false`,
`too_many_missing` is `true` and `too_few_rows` is `false` even though the
score subtracts `max_missing_share` directly. -/
theorem quality_flags_from_raw_fields (req : QualityRequest) :
    (quality req).flags =
      [("too_few_rows", decide (req.n_rows < 1000)),
       ("too_many_columns", decide (req.n_cols > 100)),
       ("too_many_missing", decide (req.max_missing_share > 5/10)),
       ("no_numeric_columns", decide (req.numeric_cols = 0)),
       ("no_categorical_columns", decide (req.categorical_cols = 0))] ∧
    quality ⟨2000, 5, 9/10, 3, 2⟩ =
      { ok_for_model := false
        quality_score := 1/10
        message := msg_not_ok
        flags :=
          [("too_few_rows", false), ("too_many_columns", false),
           ("too_many_missing", true), ("no_numeric_columns", false),
           ("no_categorical_columns", false)]
        dataset_shape := (2000, 5) } := by
  constructor
  · rfl
  · simp only [quality, QualityResponse.mk.injEq]
    norm_num

/-- C4: `quality_score` is monotonically non-increasing in
`max_missing_share` with all other fields held fixed. -/
theorem quality_score_antitone_in_missing (a b : QualityRequest)
    (hr : a.n_rows = b.n_rows) (hc : a.n_cols = b.n_cols)
    (hn : a.numeric_cols = b.numeric_cols)
    (hk : a.categorical_cols = b.categorical_cols)
    (hm : a.max_missing_share ≤ b.max_missing_share) :
    (quality b).quality_score ≤ (quality a).quality_score := by
  simp only [quality, hr, hc, hn, hk]
  split_ifs <;>
    exact max_le_max le_rfl (min_le_min le_rfl (by linarith))

/-- Concrete instantiation of `quality_score_antitone_in_missing`: raising
`max_missing_share` from `0.2` to `0.6` cannot raise the score. -/
theorem quality_score_antitone_in_missing_witness :
    (⟨1500, 20, 2/10, 4, 4⟩ : QualityRequest).n_rows = 1500 ∧
    (quality ⟨1500, 20, 6/10, 4, 4⟩).quality_score ≤
      (quality ⟨1500, 20, 2/10, 4, 4⟩).quality_score :=
  ⟨rfl,
   quality_score_antitone_in_missing ⟨1500, 20, 2/10, 4, 4⟩ ⟨1500, 20, 6/10, 4, 4⟩
     rfl rfl rfl rfl (by norm_num)⟩

/-! ## CSV ingestion pipeline -/

/-- A parsed tabular structure: the only facts about a pandas `DataFrame`
the embedded code consumes are its two axis lengths. -/
structure Table where
  n_rows : ℕ
  n_cols : ℕ
deriving DecidableEq

/-- `DataFrame.empty`: true when either axis has length zero. -/
def Table.empty (df : Table) : Bool := df.n_rows = 0 || df.n_cols = 0

/-- A value of the collaborator's flag mapping: Python booleans or numbers
(the source only distinguishes `isinstance(value, bool)` from the rest, and
converts the `quality_score` entry with `float`). -/
inductive FlagValue where
  | bool (b : Bool)
  | num (q : ℚ)
deriving DecidableEq

/-- Python `float()` applied to a flag value: numbers pass through, booleans
coerce to `0`/`1`. -/
def FlagValue.toFloat : FlagValue → ℚ
  | .bool b => if b then 1 else 0
  | .num q => q

/-- Modelled from the spec: the summary produced by the collaborator's
`summarize_dataset` (in `eda_cli.core`, not part of the embedded file).  Per
the design document the summary shape "is not guaranteed to carry dimension
fields", so `n_rows`/`n_cols` are optional; `none` models an object on which
attribute access raises `AttributeError`. -/
structure Summary where
  n_rows : Option ℕ
  n_cols : Option ℕ
deriving DecidableEq

/-- Modelled from the spec: the EDA collaborator of `eda_cli.core`
(`summarize_dataset`, `missing_table`, `compute_quality_flags`).  `MR` is the
opaque type of missing-value reports, which the embedded code only passes
through.  The flag mapping is a key/value list (a Python dict: keys unique
in any real output). -/
structure EdaCore (MR : Type) where
  summarize_dataset : Table → Summary
  missing_table : Table → MR
  compute_quality_flags : Summary → MR → Table → List (String × FlagValue)

/-- The content-type allow-list of both CSV endpoints. -/
def allowed_content_types : List String :=
  ["text/csv", "application/vnd.ms-excel", "application/octet-stream"]

/-- Detail of the 400 response for an unrecognized content type. -/
def detail_bad_content_type : String :=
  "Ожидается CSV-файл (content-type text/csv)."

/-- Detail of the 400 response for an empty parsed DataFrame. -/
def detail_empty_csv : String :=
  "CSV-файл не содержит данных (пустой DataFrame)."

/-- Detail of the 400 response for a failed `pd.read_csv`, wrapping the
underlying exception message. -/
def detail_read_failed (exc : String) : String :=
  "Не удалось прочитать CSV: " ++ exc

/-- CSV verdict message when the dataset passes. -/
def msg_csv_ok : String :=
  "CSV выглядит достаточно качественным для обучения модели (по текущим эвристикам)."

/-- CSV verdict message when the dataset fails. -/
def msg_csv_not_ok : String :=
  "CSV требует доработки перед обучением модели (по текущим эвристикам)."

/-- An exception escaping an endpoint: an `HTTPException(status_code,
detail)`, or an uncaught `AttributeError` on the named attribute. -/
inductive PyError where
  | http (status_code : ℕ) (detail : String)
  | attributeError (name : String)
deriving DecidableEq

/-- One record as assembled by `log_request`: the explicit arguments of the
call, with `none` for the keyword arguments left at their `None` default. -/
structure LogRecord where
  endpoint : String
  status : String
  latency_ms : ℚ
  ok_for_model : Option Bool := none
  n_rows : Option ℕ := none
  n_cols : Option ℕ := none
deriving DecidableEq

/-- A serialized JSON value of a telemetry record. -/
inductive JsonValue where
  | str (s : String)
  | num (q : ℚ)
  | bool (b : Bool)
deriving DecidableEq

/-- `JSONFormatter.format`: builds the key/value pairs in the source's
order, then drops every entry whose value is `None`.  The timestamp and the
correlation id read from the ambient context are parameters. -/
def JSONFormatter.format (r : LogRecord) (timestamp request_id : String) :
    List (String × JsonValue) :=
  ([("endpoint", some (JsonValue.str r.endpoint)),
    ("status", some (JsonValue.str r.status)),
    ("latency_ms", some (JsonValue.num r.latency_ms)),
    ("ok_for_model", r.ok_for_model.map JsonValue.bool),
    ("n_rows", r.n_rows.map (fun n => JsonValue.num n)),
    ("n_cols", r.n_cols.map (fun n => JsonValue.num n)),
    ("timestamp", some (JsonValue.str timestamp)),
    ("request_id", some (JsonValue.str request_id))]).filterMap
    (fun kv => kv.2.map (fun v => (kv.1, v)))

/-- The dict comprehension of both CSV endpoints: keep exactly the entries
whose value is a Python `bool`. -/
def bool_flags (flags_all : List (String × FlagValue)) : List (String × Bool) :=
  flags_all.filterMap (fun kv =>
    match kv.2 with
    | .bool b => some (kv.1, b)
    | .num _ => none)

/-- The shape derivation of `quality_from_csv`: `int(summary.n_rows)` /
`int(summary.n_cols)` inside `try`, falling back to `df.shape` on
`AttributeError`. -/
def summary_shape_or (summary : Summary) (df : Table) : ℕ × ℕ :=
  match summary.n_rows, summary.n_cols with
  | some r, some c => (r, c)
  | _, _ => (df.n_rows, df.n_cols)

/-- Response body of `POST /quality-from-csv`. -/
structure CsvQualityResponse where
  ok_for_model : Bool
  quality_score : ℚ
  message : String
  latency_ms : ℚ
  flags : List (String × Bool)
  dataset_shape : ℕ × ℕ
deriving DecidableEq

/-- Response body of `POST /quality-flags-from-csv`. -/
structure QualityFlagsResponse where
  flags : List (String × Bool)
deriving DecidableEq

/-- The `/quality-from-csv` endpoint.  `read_csv` is the outcome
`pd.read_csv` would produce on the uploaded bytes (`Except.error` carrying
the exception message); `latency_ms` the elapsed time measured at the point
the endpoint logs.  Returns the outcome together with the list of telemetry
records emitted. -/
def quality_from_csv {MR : Type} (core : EdaCore MR) (content_type : String)
    (read_csv : Except String Table) (latency_ms : ℚ) :
    Except PyError CsvQualityResponse × List LogRecord :=
  if content_type ∉ allowed_content_types then
    (Except.error (PyError.http 400 detail_bad_content_type),
     [{ endpoint := "/quality-from-csv", status := "error", latency_ms := latency_ms }])
  else
    match read_csv with
    | Except.error exc =>
        (Except.error (PyError.http 400 (detail_read_failed exc)),
         [{ endpoint := "/quality-from-csv", status := "error", latency_ms := latency_ms }])
    | Except.ok df =>
        if df.empty then
          (Except.error (PyError.http 400 detail_empty_csv),
           [{ endpoint := "/quality-from-csv", status := "error", latency_ms := latency_ms }])
        else
          let summary := core.summarize_dataset df
          let missing_df := core.missing_table df
          let flags_all := core.compute_quality_flags summary missing_df df
          let score := ((flags_all.lookup "quality_score").getD (FlagValue.num 0)).toFloat
          let score := max 0 (min 1 score)
          let ok_for_model : Bool := decide ((7 : ℚ)/10 ≤ score)
          let message := if ok_for_model then msg_csv_ok else msg_csv_not_ok
          let flags_bool := bool_flags flags_all
          let shape := summary_shape_or summary df
          (Except.ok
            { ok_for_model := ok_for_model
              quality_score := score
              message := message
              latency_ms := latency_ms
              flags := flags_bool
              dataset_shape := shape },
           [{ endpoint := "/quality-from-csv", status := "success",
              latency_ms := latency_ms, ok_for_model := some ok_for_model,
              n_rows := some shape.1, n_cols := some shape.2 }])

/-- The `/quality-flags-from-csv` endpoint.  Same ingestion front as
`quality_from_csv`; on success it logs `summary.n_rows`/`summary.n_cols`
directly (no fallback): a summary without those attributes raises an
uncaught `AttributeError` before anything is logged or returned. -/
def quality_flags_from_csv {MR : Type} (core : EdaCore MR) (content_type : String)
    (read_csv : Except String Table) (latency_ms : ℚ) :
    Except PyError QualityFlagsResponse × List LogRecord :=
  if content_type ∉ allowed_content_types then
    (Except.error (PyError.http 400 detail_bad_content_type),
     [{ endpoint := "/quality-flags-from-csv", status := "error", latency_ms := latency_ms }])
  else
    match read_csv with
    | Except.error exc =>
        (Except.error (PyError.http 400 (detail_read_failed exc)),
         [{ endpoint := "/quality-flags-from-csv", status := "error", latency_ms := latency_ms }])
    | Except.ok df =>
        if df.empty then
          (Except.error (PyError.http 400 detail_empty_csv),
           [{ endpoint := "/quality-flags-from-csv", status := "error", latency_ms := latency_ms }])
        else
          let summary := core.summarize_dataset df
          let missing_df := core.missing_table df
          let flags_all := core.compute_quality_flags summary missing_df df
          let flags_bool := bool_flags flags_all
          match summary.n_rows, summary.n_cols with
          | some r, some c =>
              (Except.ok { flags := flags_bool },
               [{ endpoint := "/quality-flags-from-csv", status := "success",
                  latency_ms := latency_ms, ok_for_model := none,
                  n_rows := some r, n_cols := some c }])
          | none, _ =>
              (Except.error (PyError.attributeError "n_rows"), [])
          | some _, none =>
              (Except.error (PyError.attributeError "n_cols"), [])

/-! ## Helper lemmas on the flag mapping -/

lemma lookup_mem {l : List (String × FlagValue)} {k : String} {v : FlagValue}
    (h : l.lookup k = some v) : (k, v) ∈ l := by
  induction l with
  | nil => simp [List.lookup] at h
  | cons p t ih =>
    obtain ⟨kp, vp⟩ := p
    by_cases hk : k = kp
    · subst hk
      simp [List.lookup] at h
      simp [h]
    · have hbeq : (k == kp) = false := beq_eq_false_iff_ne.mpr hk
      simp [List.lookup, hbeq] at h
      exact List.mem_cons_of_mem _ (ih h)

lemma mem_bool_flags {l : List (String × FlagValue)} {k : String} {b : Bool} :
    (k, b) ∈ bool_flags l ↔ (k, FlagValue.bool b) ∈ l := by
  induction l with
  | nil => simp [bool_flags]
  | cons p t ih =>
    obtain ⟨kp, vp⟩ := p
    cases vp with
    | bool b2 =>
      simp only [bool_flags, List.filterMap_cons] at ih ⊢
      simp [List.mem_cons, ih, Prod.ext_iff]
    | num q =>
      simp only [bool_flags, List.filterMap_cons] at ih ⊢
      simp [List.mem_cons, ih, Prod.ext_iff]

lemma mem_keys_bool_flags {l : List (String × FlagValue)} {k : String} :
    k ∈ (bool_flags l).map Prod.fst ↔ ∃ b, (k, FlagValue.bool b) ∈ l := by
  constructor
  · intro h
    obtain ⟨⟨k2, b⟩, hmem, hk⟩ := List.mem_map.mp h
    cases hk
    exact ⟨b, mem_bool_flags.mp hmem⟩
  · rintro ⟨b, hb⟩
    exact List.mem_map.mpr ⟨(k, b), mem_bool_flags.mpr hb, rfl⟩

lemma nodup_keys_unique {l : List (String × FlagValue)}
    (hnd : (l.map Prod.fst).Nodup) {k : String} {v w : FlagValue}
    (hv : (k, v) ∈ l) (hw : (k, w) ∈ l) : v = w := by
  induction l with
  | nil => simp at hv
  | cons p t ih =>
    simp only [List.map_cons, List.nodup_cons] at hnd
    rcases List.mem_cons.mp hv with hv1 | hv'
    · rcases List.mem_cons.mp hw with hw1 | hw'
      · rw [← hv1] at hw1
        exact (Prod.ext_iff.mp hw1.symm).2
      · exfalso
        apply hnd.1
        rw [← hv1]
        exact List.mem_map.mpr ⟨(k, w), hw', rfl⟩
    · rcases List.mem_cons.mp hw with hw1 | hw'
      · exfalso
        apply hnd.1
        rw [← hw1]
        exact List.mem_map.mpr ⟨(k, v), hv', rfl⟩
      · exact ih hnd.2 hv' hw'

/-- A non-boolean entry of a dict with unique keys contributes no key to the
boolean restriction. -/
lemma nonbool_not_in_bool_flags {l : List (String × FlagValue)}
    (hnd : (l.map Prod.fst).Nodup) {k : String} {v : FlagValue}
    (hv : (k, v) ∈ l) (hb : ∀ b, v ≠ FlagValue.bool b) :
    k ∉ (bool_flags l).map Prod.fst := by
  intro h
  obtain ⟨b, hmem⟩ := mem_keys_bool_flags.mp h
  exact hb b (nodup_keys_unique hnd hv hmem)

/-! ## Sample collaborators used to instantiate the theorems -/

/-- A collaborator reporting dimensions faithfully, with a numeric
`quality_score` and two boolean flags. -/
def sample_core : EdaCore Unit where
  summarize_dataset := fun df => { n_rows := some df.n_rows, n_cols := some df.n_cols }
  missing_table := fun _ => ()
  compute_quality_flags := fun _ _ _ =>
    [("quality_score", FlagValue.num (9/10)),
     ("too_few_rows", FlagValue.bool false),
     ("has_constant_columns", FlagValue.bool true)]

/-- A collaborator whose summary carries no dimension fields. -/
def no_dims_core : EdaCore Unit where
  summarize_dataset := fun _ => { n_rows := none, n_cols := none }
  missing_table := fun _ => ()
  compute_quality_flags := fun _ _ _ =>
    [("quality_score", FlagValue.num 1),
     ("too_few_rows", FlagValue.bool false)]

/-- A collaborator whose flag mapping has no `quality_score` entry. -/
def no_score_core : EdaCore Unit where
  summarize_dataset := fun df => { n_rows := some df.n_rows, n_cols := some df.n_cols }
  missing_table := fun _ => ()
  compute_quality_flags := fun _ _ _ => [("too_few_rows", FlagValue.bool false)]

/-! ## Claims about the CSV endpoints -/

/-- C5: on either CSV endpoint, a content-type hint outside the allow-list
yields the `InvalidContentType` 400 failure, and the outcome (response and
telemetry alike) is independent of the parse result and of the collaborator:
the parse step is never reached. -/
theorem csv_invalid_content_type_rejected {MR MR2 : Type}
    (core : EdaCore MR) (core2 : EdaCore MR2) (content_type : String)
    (read_csv read_csv2 : Except String Table) (latency_ms : ℚ)
    (h : content_type ∉ allowed_content_types) :
    (quality_from_csv core content_type read_csv latency_ms).1 =
      Except.error (PyError.http 400 detail_bad_content_type) ∧
    (quality_flags_from_csv core content_type read_csv latency_ms).1 =
      Except.error (PyError.http 400 detail_bad_content_type) ∧
    quality_from_csv core content_type read_csv latency_ms =
      quality_from_csv core2 content_type read_csv2 latency_ms ∧
    quality_flags_from_csv core content_type read_csv latency_ms =
      quality_flags_from_csv core2 content_type read_csv2 latency_ms := by
  refine ⟨?_, ?_, ?_, ?_⟩ <;>
    simp [quality_from_csv, quality_flags_from_csv, h]

/-- Concrete instantiation of `csv_invalid_content_type_rejected` at
content type `application/json`. -/
theorem csv_invalid_content_type_rejected_witness :
    "application/json" ∉ allowed_content_types ∧
    ((quality_from_csv sample_core "application/json" (Except.ok ⟨3, 2⟩) 1).1 =
       Except.error (PyError.http 400 detail_bad_content_type) ∧
     (quality_flags_from_csv sample_core "application/json" (Except.ok ⟨3, 2⟩) 1).1 =
       Except.error (PyError.http 400 detail_bad_content_type) ∧
     quality_from_csv sample_core "application/json" (Except.ok ⟨3, 2⟩) 1 =
       quality_from_csv no_dims_core "application/json" (Except.error "boom") 1 ∧
     quality_flags_from_csv sample_core "application/json" (Except.ok ⟨3, 2⟩) 1 =
       quality_flags_from_csv no_dims_core "application/json" (Except.error "boom") 1) :=
  ⟨by decide,
   csv_invalid_content_type_rejected sample_core no_dims_core "application/json"
     (Except.ok ⟨3, 2⟩) (Except.error "boom") 1 (by decide)⟩

/-- C6: on either CSV endpoint, a parsed table with zero rows yields the
`EmptyDataset` 400 failure, whatever the column count. -/
theorem csv_empty_dataset_rejected {MR : Type} (core : EdaCore MR)
    (content_type : String) (df : Table) (latency_ms : ℚ)
    (hct : content_type ∈ allowed_content_types) (hrows : df.n_rows = 0) :
    (quality_from_csv core content_type (Except.ok df) latency_ms).1 =
      Except.error (PyError.http 400 detail_empty_csv) ∧
    (quality_flags_from_csv core content_type (Except.ok df) latency_ms).1 =
      Except.error (PyError.http 400 detail_empty_csv) := by
  have he : df.empty = true := by simp [Table.empty, hrows]
  constructor <;>
    simp [quality_from_csv, quality_flags_from_csv, hct, he]

/-- Concrete instantiation of `csv_empty_dataset_rejected` at a 0×7 table. -/
theorem csv_empty_dataset_rejected_witness :
    "text/csv" ∈ allowed_content_types ∧ (Table.mk 0 7).n_rows = 0 ∧
    ((quality_from_csv sample_core "text/csv" (Except.ok ⟨0, 7⟩) 1).1 =
       Except.error (PyError.http 400 detail_empty_csv) ∧
     (quality_flags_from_csv sample_core "text/csv" (Except.ok ⟨0, 7⟩) 1).1 =
       Except.error (PyError.http 400 detail_empty_csv)) :=
  ⟨by decide, rfl,
   csv_empty_dataset_rejected sample_core "text/csv" ⟨0, 7⟩ 1 (by decide) rfl⟩

/-- An input on which the ingestion front of the CSV endpoints fails: an
unrecognized content type, a parse failure, or an empty parsed table. -/
def ingestion_fails (content_type : String) (read_csv : Except String Table) : Prop :=
  content_type ∉ allowed_content_types ∨
  (∃ exc, read_csv = Except.error exc) ∨
  (∃ df, read_csv = Except.ok df ∧ df.empty = true)

/-- C7: on every ingestion failure path of either CSV endpoint, exactly one
telemetry record is emitted, with `status="error"` and the latency known at
the failure point, and the failure propagates (`Except.error`); its
serialized form carries exactly the keys `endpoint`, `status`, `latency_ms`,
`timestamp`, `request_id` — `ok_for_model`, `n_rows`, `n_cols` are omitted
entirely, not serialized as null. -/
theorem csv_failure_emits_one_error_record {MR : Type} (core : EdaCore MR)
    (content_type : String) (read_csv : Except String Table) (latency_ms : ℚ)
    (timestamp request_id : String)
    (h : ingestion_fails content_type read_csv) :
    (∃ e r, quality_from_csv core content_type read_csv latency_ms =
        (Except.error e, [r]) ∧ r.status = "error" ∧ r.latency_ms = latency_ms ∧
        (JSONFormatter.format r timestamp request_id).map Prod.fst =
          ["endpoint", "status", "latency_ms", "timestamp", "request_id"]) ∧
    (∃ e r, quality_flags_from_csv core content_type read_csv latency_ms =
        (Except.error e, [r]) ∧ r.status = "error" ∧ r.latency_ms = latency_ms ∧
        (JSONFormatter.format r timestamp request_id).map Prod.fst =
          ["endpoint", "status", "latency_ms", "timestamp", "request_id"]) := by
  constructor
  · rcases h with h | ⟨exc, rfl⟩ | ⟨df, rfl, he⟩
    · exact ⟨PyError.http 400 detail_bad_content_type,
        { endpoint := "/quality-from-csv", status := "error", latency_ms := latency_ms },
        by simp [quality_from_csv, h], rfl, rfl, rfl⟩
    · by_cases hct : content_type ∈ allowed_content_types
      · exact ⟨PyError.http 400 (detail_read_failed exc),
          { endpoint := "/quality-from-csv", status := "error", latency_ms := latency_ms },
          by simp [quality_from_csv, hct], rfl, rfl, rfl⟩
      · exact ⟨PyError.http 400 detail_bad_content_type,
          { endpoint := "/quality-from-csv", status := "error", latency_ms := latency_ms },
          by simp [quality_from_csv, hct], rfl, rfl, rfl⟩
    · by_cases hct : content_type ∈ allowed_content_types
      · exact ⟨PyError.http 400 detail_empty_csv,
          { endpoint := "/quality-from-csv", status := "error", latency_ms := latency_ms },
          by simp [quality_from_csv, hct, he], rfl, rfl, rfl⟩
      · exact ⟨PyError.http 400 detail_bad_content_type,
          { endpoint := "/quality-from-csv", status := "error", latency_ms := latency_ms },
          by simp [quality_from_csv, hct], rfl, rfl, rfl⟩
  · rcases h with h | ⟨exc, rfl⟩ | ⟨df, rfl, he⟩
    · exact ⟨PyError.http 400 detail_bad_content_type,
        { endpoint := "/quality-flags-from-csv", status := "error", latency_ms := latency_ms },
        by simp [quality_flags_from_csv, h], rfl, rfl, rfl⟩
    · by_cases hct : content_type ∈ allowed_content_types
      · exact ⟨PyError.http 400 (detail_read_failed exc),
          { endpoint := "/quality-flags-from-csv", status := "error", latency_ms := latency_ms },
          by simp [quality_flags_from_csv, hct], rfl, rfl, rfl⟩
      · exact ⟨PyError.http 400 detail_bad_content_type,
          { endpoint := "/quality-flags-from-csv", status := "error", latency_ms := latency_ms },
          by simp [quality_flags_from_csv, hct], rfl, rfl, rfl⟩
    · by_cases hct : content_type ∈ allowed_content_types
      · exact ⟨PyError.http 400 detail_empty_csv,
          { endpoint := "/quality-flags-from-csv", status := "error", latency_ms := latency_ms },
          by simp [quality_flags_from_csv, hct, he], rfl, rfl, rfl⟩
      · exact ⟨PyError.http 400 detail_bad_content_type,
          { endpoint := "/quality-flags-from-csv", status := "error", latency_ms := latency_ms },
          by simp [quality_flags_from_csv, hct], rfl, rfl, rfl⟩

/-- Concrete instantiation of `csv_failure_emits_one_error_record` at a
parse failure under a valid content type. -/
theorem csv_failure_emits_one_error_record_witness :
    ingestion_fails "text/csv" (Except.error "oops") ∧
    ((∃ e r, quality_from_csv sample_core "text/csv" (Except.error "oops") 2 =
        (Except.error e, [r]) ∧ r.status = "error" ∧ r.latency_ms = 2 ∧
        (JSONFormatter.format r "2024-01-01T00:00:00Z" "req-1").map Prod.fst =
          ["endpoint", "status", "latency_ms", "timestamp", "request_id"]) ∧
     (∃ e r, quality_flags_from_csv sample_core "text/csv" (Except.error "oops") 2 =
        (Except.error e, [r]) ∧ r.status = "error" ∧ r.latency_ms = 2 ∧
        (JSONFormatter.format r "2024-01-01T00:00:00Z" "req-1").map Prod.fst =
          ["endpoint", "status", "latency_ms", "timestamp", "request_id"])) :=
  ⟨Or.inr (Or.inl ⟨"oops", rfl⟩),
   csv_failure_emits_one_error_record sample_core "text/csv" (Except.error "oops") 2
     "2024-01-01T00:00:00Z" "req-1" (Or.inr (Or.inl ⟨"oops", rfl⟩))⟩

/-- C3: on a successful CSV-scoring request, the score is the collaborator's
`quality_score` entry clamped to `[0,1]`, `ok_for_model` holds exactly when
the clamped score is `≥ 0.7`, and the returned flags are exactly the
boolean-tagged entries of `flags_all` — any entry whose value is not a
Python bool (in particular the numeric `quality_score` itself) contributes
no key to them. -/
theorem csv_scoring_success {MR : Type} (core : EdaCore MR)
    (content_type : String) (df : Table) (latency_ms : ℚ) (q : ℚ)
    (hct : content_type ∈ allowed_content_types) (hne : df.empty = false)
    (hq : (core.compute_quality_flags (core.summarize_dataset df)
        (core.missing_table df) df).lookup "quality_score" = some (FlagValue.num q))
    (hnd : ((core.compute_quality_flags (core.summarize_dataset df)
        (core.missing_table df) df).map Prod.fst).Nodup) :
    ∃ resp, (quality_from_csv core content_type (Except.ok df) latency_ms).1 =
        Except.ok resp ∧
      resp.quality_score = clamp01 q ∧
      (resp.ok_for_model = true ↔ (7 : ℚ)/10 ≤ clamp01 q) ∧
      resp.flags = bool_flags (core.compute_quality_flags (core.summarize_dataset df)
        (core.missing_table df) df) ∧
      "quality_score" ∉ resp.flags.map Prod.fst ∧
      (∀ k v, (k, v) ∈ core.compute_quality_flags (core.summarize_dataset df)
          (core.missing_table df) df →
        (∀ b, v ≠ FlagValue.bool b) → k ∉ resp.flags.map Prod.fst) := by
  refine ⟨{ ok_for_model := decide ((7 : ℚ)/10 ≤ clamp01 q)
            quality_score := clamp01 q
            message := if decide ((7 : ℚ)/10 ≤ clamp01 q) then msg_csv_ok else msg_csv_not_ok
            latency_ms := latency_ms
            flags := bool_flags (core.compute_quality_flags (core.summarize_dataset df)
              (core.missing_table df) df)
            dataset_shape := summary_shape_or (core.summarize_dataset df) df },
    ?_, rfl, by simp, rfl, ?_, ?_⟩
  · simp [quality_from_csv, hct, hne, hq, FlagValue.toFloat, clamp01]
  · exact nonbool_not_in_bool_flags hnd (lookup_mem hq)
      (fun b hb => FlagValue.noConfusion hb)
  · intro k v hv hb
    exact nonbool_not_in_bool_flags hnd hv hb

/-- Concrete instantiation of `csv_scoring_success` on a 2000×5 table with
`quality_score = 0.9`. -/
theorem csv_scoring_success_witness :
    "text/csv" ∈ allowed_content_types ∧
    (Table.mk 2000 5).empty = false ∧
    (sample_core.compute_quality_flags (sample_core.summarize_dataset ⟨2000, 5⟩)
        (sample_core.missing_table ⟨2000, 5⟩) ⟨2000, 5⟩).lookup "quality_score" =
      some (FlagValue.num (9/10)) ∧
    ((sample_core.compute_quality_flags (sample_core.summarize_dataset ⟨2000, 5⟩)
        (sample_core.missing_table ⟨2000, 5⟩) ⟨2000, 5⟩).map Prod.fst).Nodup ∧
    (∃ resp, (quality_from_csv sample_core "text/csv" (Except.ok ⟨2000, 5⟩) 1).1 =
        Except.ok resp ∧
      resp.quality_score = clamp01 (9/10) ∧
      (resp.ok_for_model = true ↔ (7 : ℚ)/10 ≤ clamp01 (9/10)) ∧
      resp.flags = bool_flags (sample_core.compute_quality_flags
        (sample_core.summarize_dataset ⟨2000, 5⟩)
        (sample_core.missing_table ⟨2000, 5⟩) ⟨2000, 5⟩) ∧
      "quality_score" ∉ resp.flags.map Prod.fst ∧
      (∀ k v, (k, v) ∈ sample_core.compute_quality_flags
          (sample_core.summarize_dataset ⟨2000, 5⟩)
          (sample_core.missing_table ⟨2000, 5⟩) ⟨2000, 5⟩ →
        (∀ b, v ≠ FlagValue.bool b) → k ∉ resp.flags.map Prod.fst)) :=
  ⟨by decide, rfl, rfl, by decide,
   csv_scoring_success sample_core "text/csv" ⟨2000, 5⟩ 1 (9/10)
     (by decide) rfl rfl (by decide)⟩

/-- C10: if the collaborator's flag mapping has no `quality_score` entry,
CSV-scoring does not fail: the default `0.0` is used, so the returned score
is `0`, `ok_for_model` is `false` and the not-ready message is returned. -/
theorem csv_missing_score_defaults_zero {MR : Type} (core : EdaCore MR)
    (content_type : String) (df : Table) (latency_ms : ℚ)
    (hct : content_type ∈ allowed_content_types) (hne : df.empty = false)
    (hnone : (core.compute_quality_flags (core.summarize_dataset df)
        (core.missing_table df) df).lookup "quality_score" = none) :
    ∃ resp, (quality_from_csv core content_type (Except.ok df) latency_ms).1 =
        Except.ok resp ∧
      resp.quality_score = 0 ∧ resp.ok_for_model = false ∧
      resp.message = msg_csv_not_ok := by
  refine ⟨{ ok_for_model := false
            quality_score := 0
            message := msg_csv_not_ok
            latency_ms := latency_ms
            flags := bool_flags (core.compute_quality_flags (core.summarize_dataset df)
              (core.missing_table df) df)
            dataset_shape := summary_shape_or (core.summarize_dataset df) df },
    ?_, rfl, rfl, rfl⟩
  simp [quality_from_csv, hct, hne, hnone, FlagValue.toFloat]

/-- Concrete instantiation of `csv_missing_score_defaults_zero` with a
collaborator that reports no `quality_score`. -/
theorem csv_missing_score_defaults_zero_witness :
    "text/csv" ∈ allowed_content_types ∧
    (Table.mk 1200 4).empty = false ∧
    (no_score_core.compute_quality_flags (no_score_core.summarize_dataset ⟨1200, 4⟩)
        (no_score_core.missing_table ⟨1200, 4⟩) ⟨1200, 4⟩).lookup "quality_score" = none ∧
    (∃ resp, (quality_from_csv no_score_core "text/csv" (Except.ok ⟨1200, 4⟩) 1).1 =
        Except.ok resp ∧
      resp.quality_score = 0 ∧ resp.ok_for_model = false ∧
      resp.message = msg_csv_not_ok) :=
  ⟨by decide, rfl, by decide,
   csv_missing_score_defaults_zero no_score_core "text/csv" ⟨1200, 4⟩ 1
     (by decide) rfl (by decide)⟩

/-- C9: on a successful CSV-full-flags request, the returned mapping is
exactly the restriction of the collaborator's `flags_all` to its
boolean-tagged entries (membership characterized both ways), with no score
or verdict field added; provided the `quality_score` entry is not a Python
bool (the collaborator contracts it numeric), no `quality_score` key
appears. -/
theorem csv_flags_success {MR : Type} (core : EdaCore MR)
    (content_type : String) (df : Table) (latency_ms : ℚ) (r c : ℕ)
    (hct : content_type ∈ allowed_content_types) (hne : df.empty = false)
    (hr : (core.summarize_dataset df).n_rows = some r)
    (hc : (core.summarize_dataset df).n_cols = some c)
    (hqs : ∀ b, ("quality_score", FlagValue.bool b) ∉
        core.compute_quality_flags (core.summarize_dataset df) (core.missing_table df) df) :
    (quality_flags_from_csv core content_type (Except.ok df) latency_ms).1 =
      Except.ok { flags := bool_flags (core.compute_quality_flags
        (core.summarize_dataset df) (core.missing_table df) df) } ∧
    "quality_score" ∉ (bool_flags (core.compute_quality_flags
        (core.summarize_dataset df) (core.missing_table df) df)).map Prod.fst ∧
    (∀ k b, (k, b) ∈ bool_flags (core.compute_quality_flags
          (core.summarize_dataset df) (core.missing_table df) df) ↔
        (k, FlagValue.bool b) ∈ core.compute_quality_flags
          (core.summarize_dataset df) (core.missing_table df) df) := by
  refine ⟨?_, ?_, ?_⟩
  · simp [quality_flags_from_csv, hct, hne, hr, hc]
  · intro h
    obtain ⟨b, hmem⟩ := mem_keys_bool_flags.mp h
    exact hqs b hmem
  · intro k b
    exact mem_bool_flags

/-- Concrete instantiation of `csv_flags_success` on a 2000×5 table. -/
theorem csv_flags_success_witness :
    "text/csv" ∈ allowed_content_types ∧
    (Table.mk 2000 5).empty = false ∧
    (sample_core.summarize_dataset ⟨2000, 5⟩).n_rows = some 2000 ∧
    (sample_core.summarize_dataset ⟨2000, 5⟩).n_cols = some 5 ∧
    (∀ b, ("quality_score", FlagValue.bool b) ∉
        sample_core.compute_quality_flags (sample_core.summarize_dataset ⟨2000, 5⟩)
          (sample_core.missing_table ⟨2000, 5⟩) ⟨2000, 5⟩) ∧
    ((quality_flags_from_csv sample_core "text/csv" (Except.ok ⟨2000, 5⟩) 1).1 =
       Except.ok { flags := bool_flags (sample_core.compute_quality_flags
         (sample_core.summarize_dataset ⟨2000, 5⟩)
         (sample_core.missing_table ⟨2000, 5⟩) ⟨2000, 5⟩) } ∧
     "quality_score" ∉ (bool_flags (sample_core.compute_quality_flags
         (sample_core.summarize_dataset ⟨2000, 5⟩)
         (sample_core.missing_table ⟨2000, 5⟩) ⟨2000, 5⟩)).map Prod.fst ∧
     (∀ k b, (k, b) ∈ bool_flags (sample_core.compute_quality_flags
           (sample_core.summarize_dataset ⟨2000, 5⟩)
           (sample_core.missing_table ⟨2000, 5⟩) ⟨2000, 5⟩) ↔
         (k, FlagValue.bool b) ∈ sample_core.compute_quality_flags
           (sample_core.summarize_dataset ⟨2000, 5⟩)
           (sample_core.missing_table ⟨2000, 5⟩) ⟨2000, 5⟩)) :=
  ⟨by decide, rfl, rfl, rfl, by decide,
   csv_flags_success sample_core "text/csv" ⟨2000, 5⟩ 1 2000 5
     (by decide) rfl rfl rfl (by decide)⟩

/-- Evaluation of `quality_from_csv` on the success path. -/
lemma quality_from_csv_ok {MR : Type} (core : EdaCore MR) (content_type : String)
    (df : Table) (latency_ms : ℚ)
    (hct : content_type ∈ allowed_content_types) (hne : df.empty = false) :
    quality_from_csv core content_type (Except.ok df) latency_ms =
      (Except.ok
        { ok_for_model := decide ((7 : ℚ)/10 ≤ max 0 (min 1
            (((core.compute_quality_flags (core.summarize_dataset df)
              (core.missing_table df) df).lookup "quality_score").getD
              (FlagValue.num 0)).toFloat))
          quality_score := max 0 (min 1
            (((core.compute_quality_flags (core.summarize_dataset df)
              (core.missing_table df) df).lookup "quality_score").getD
              (FlagValue.num 0)).toFloat)
          message := if decide ((7 : ℚ)/10 ≤ max 0 (min 1
              (((core.compute_quality_flags (core.summarize_dataset df)
                (core.missing_table df) df).lookup "quality_score").getD
                (FlagValue.num 0)).toFloat))
            then msg_csv_ok else msg_csv_not_ok
          latency_ms := latency_ms
          flags := bool_flags (core.compute_quality_flags (core.summarize_dataset df)
            (core.missing_table df) df)
          dataset_shape := summary_shape_or (core.summarize_dataset df) df },
       [{ endpoint := "/quality-from-csv", status := "success",
          latency_ms := latency_ms,
          ok_for_model := some (decide ((7 : ℚ)/10 ≤ max 0 (min 1
            (((core.compute_quality_flags (core.summarize_dataset df)
              (core.missing_table df) df).lookup "quality_score").getD
              (FlagValue.num 0)).toFloat))),
          n_rows := some (summary_shape_or (core.summarize_dataset df) df).1,
          n_cols := some (summary_shape_or (core.summarize_dataset df) df).2 }]) := by
  simp [quality_from_csv, hct, hne]

/-- C8 counterexample: with a collaborator whose summary carries no
dimension fields, on a fully successful ingestion of a 5×3 table the
CSV-scoring endpoint does fall back to the table's dimensions, but the
CSV-full-flags endpoint does not: it aborts with an uncaught
`AttributeError` on `n_rows`, emitting no telemetry and attaching no
dimensions anywhere — the fallback does not apply to both entry points. -/
theorem csv_shape_fallback_counterexample :
    quality_flags_from_csv no_dims_core "text/csv" (Except.ok ⟨5, 3⟩) 1 =
      (Except.error (PyError.attributeError "n_rows"), []) ∧
    (quality_from_csv no_dims_core "text/csv" (Except.ok ⟨5, 3⟩) 1).1 =
      Except.ok { ok_for_model := true, quality_score := 1, message := msg_csv_ok,
                  latency_ms := 1, flags := [("too_few_rows", false)],
                  dataset_shape := (5, 3) } := by
  constructor
  · rfl
  · simp [quality_from_csv, no_dims_core, bool_flags, summary_shape_or,
      FlagValue.toFloat, allowed_content_types, Table.empty]
    norm_num

/-- C8 as amended: the summary-preferred/table-fallback derivation of
`(n_rows, n_cols)` holds for the CSV-scoring endpoint (response shape and
telemetry dimensions alike); the CSV-full-flags endpoint instead reads the
summary's fields unconditionally — its telemetry carries them when both are
present, and when `n_rows` is absent the request aborts with an
`AttributeError` and no fallback occurs. -/
theorem csv_shape_fallback_amended {MR : Type} (core : EdaCore MR)
    (content_type : String) (df : Table) (latency_ms : ℚ)
    (hct : content_type ∈ allowed_content_types) (hne : df.empty = false) :
    (∃ resp, (quality_from_csv core content_type (Except.ok df) latency_ms).1 =
        Except.ok resp ∧
      resp.dataset_shape = summary_shape_or (core.summarize_dataset df) df ∧
      (quality_from_csv core content_type (Except.ok df) latency_ms).2.map
          (fun rec => (rec.n_rows, rec.n_cols)) =
        [(some (summary_shape_or (core.summarize_dataset df) df).1,
          some (summary_shape_or (core.summarize_dataset df) df).2)]) ∧
    (∀ r c, (core.summarize_dataset df).n_rows = some r →
       (core.summarize_dataset df).n_cols = some c →
       (quality_flags_from_csv core content_type (Except.ok df) latency_ms).2.map
           (fun rec => (rec.n_rows, rec.n_cols)) = [(some r, some c)]) ∧
    ((core.summarize_dataset df).n_rows = none →
       quality_flags_from_csv core content_type (Except.ok df) latency_ms =
         (Except.error (PyError.attributeError "n_rows"), [])) := by
  refine ⟨?_, ?_, ?_⟩
  · rw [quality_from_csv_ok core content_type df latency_ms hct hne]
    exact ⟨_, rfl, rfl, rfl⟩
  · intro r c hr hc
    simp [quality_flags_from_csv, hct, hne, hr, hc]
  · intro hr
    simp [quality_flags_from_csv, hct, hne, hr]

/-- Concrete instantiation of `csv_shape_fallback_amended` on a 4×2 table
with a dimension-reporting collaborator. -/
theorem csv_shape_fallback_amended_witness :
    "text/csv" ∈ allowed_content_types ∧
    (Table.mk 4 2).empty = false ∧
    ((∃ resp, (quality_from_csv sample_core "text/csv" (Except.ok ⟨4, 2⟩) 1).1 =
        Except.ok resp ∧
      resp.dataset_shape = summary_shape_or (sample_core.summarize_dataset ⟨4, 2⟩) ⟨4, 2⟩ ∧
      (quality_from_csv sample_core "text/csv" (Except.ok ⟨4, 2⟩) 1).2.map
          (fun rec => (rec.n_rows, rec.n_cols)) =
        [(some (summary_shape_or (sample_core.summarize_dataset ⟨4, 2⟩) ⟨4, 2⟩).1,
          some (summary_shape_or (sample_core.summarize_dataset ⟨4, 2⟩) ⟨4, 2⟩).2)]) ∧
     (∀ r c, (sample_core.summarize_dataset ⟨4, 2⟩).n_rows = some r →
        (sample_core.summarize_dataset ⟨4, 2⟩).n_cols = some c →
        (quality_flags_from_csv sample_core "text/csv" (Except.ok ⟨4, 2⟩) 1).2.map
            (fun rec => (rec.n_rows, rec.n_cols)) = [(some r, some c)]) ∧
     ((sample_core.summarize_dataset ⟨4, 2⟩).n_rows = none →
        quality_flags_from_csv sample_core "text/csv" (Except.ok ⟨4, 2⟩) 1 =
          (Except.error (PyError.attributeError "n_rows"), []))) :=
  ⟨by decide, rfl,
   csv_shape_fallback_amended sample_core "text/csv" ⟨4, 2⟩ 1 (by decide) rfl⟩
